import Mathlib

/-!
Shallow embedding of `SQL.py` from the SkyrimWeaponDB repository.

The script opens one sqlite connection, creates five tables with
`CREATE TABLE IF NOT EXISTS`, inserts a fixed literal dataset (base game
plus two DLC batches), applies five patches (three `UPDATE`s, two
`DELETE`s) and runs seven read-only report queries.

Embedding choices, all driven by the source:
* A table is a `List` of row structures, in insertion order, exactly as
  sqlite returns them for the script's unordered `SELECT`s.
* sqlite `REAL` columns in this script only ever hold exact multiples of
  `1/10000` (speeds such as `0.8125`, weights such as `3.5`).  They are
  embedded as `Nat` counts of `1/10000` units, e.g. `0.75 ↦ 7500` and
  `17 ↦ 170000`.  The scaling is exact and injective on every literal of
  the source, so equalities and `≤` comparisons are preserved.
* The sqlite connection is a pair of database states: `db` is what the
  connection itself sees (every executed statement is immediately visible
  to later statements on the same connection), `committed` is what
  `connect.commit()` has made durable.  The `create*` helpers of the
  source call `connect.commit()`; the patch functions only mention
  `connect.commit` without calling it, so they update `db` but not
  `committed`.
* The only constraint enforced at runtime is the `UNIQUE`/`PRIMARY KEY`
  on `Weapon.ID`: the other tables declare no uniqueness, and sqlite does
  not enforce the declared `FOREIGN KEY`s unless `PRAGMA foreign_keys` is
  switched on, which the script never does.  Hence `createWeapon` is the
  only fallible insert.
-/

/-- Row of the `Weapon` table: `ID`, `Name`, `Type`, `Material`, all `TEXT NOT NULL`. -/
structure WeaponRow where
  id : String
  name : String
  type : String
  material : String
deriving DecidableEq, Repr

/-- Row of the `Type` table: `Name`, `Speed` (nullable), `Stagger`, `Reach` (nullable).
The numeric columns are fixed-point, scaled by 10000. -/
structure TypeRow where
  name : String
  speed : Option Nat
  stagger : Nat
  reach : Option Nat
deriving DecidableEq, Repr

/-- Row of the `Material` table: `Name`, `Weight` (fixed-point ×10000), `Damage`,
`Value`, `Speed` (nullable, fixed-point ×10000), `Forgeability` (nullable). -/
structure MaterialRow where
  name : String
  weight : Nat
  damage : Nat
  value : Nat
  speed : Option Nat
  forgeability : Option String
deriving DecidableEq, Repr

/-- Row of the `Forgeability` table: `Level`, `Perk_Name`. -/
structure ForgeabilityRow where
  level : Nat
  perkName : String
deriving DecidableEq, Repr

/-- Row of the `Enchanting` table: `Name`, `Effect`, `Weapon` (the restricting type name). -/
structure EnchantingRow where
  name : String
  effect : String
  weapon : String
deriving DecidableEq, Repr

/-- Row of the `EnchantedWith` table: `ID`, `EnchantmentName`. -/
structure EnchantedWithRow where
  id : String
  enchantmentName : String
deriving DecidableEq, Repr

/-- The five-table database state (one list per table, in insertion order). -/
structure DB where
  weapon : List WeaponRow
  type : List TypeRow
  material : List MaterialRow
  forgeability : List ForgeabilityRow
  enchanting : List EnchantingRow
  enchantedWith : List EnchantedWithRow
deriving DecidableEq, Repr

def emptyDB : DB :=
  { weapon := [], type := [], material := [], forgeability := [],
    enchanting := [], enchantedWith := [] }

/-- One sqlite connection: `db` is the state every statement on the connection
sees (uncommitted changes included), `committed` is the durable state produced
by the last `connect.commit()` call. -/
structure Conn where
  db : DB
  committed : DB
deriving DecidableEq, Repr

def conn0 : Conn := { db := emptyDB, committed := emptyDB }

/-- Effect of `connect.commit()`. -/
def commitConn (conn : Conn) : Conn := { conn with committed := conn.db }

/-- SCHEMA INITIALIZER.  The script issues `CREATE TABLE IF NOT EXISTS` once per
table; at this level a schema is the list of existing table names and each
statement adds the table only when absent. -/
def createTableIfNotExists (schema : List String) (t : String) : List String :=
  if t ∈ schema then schema else schema ++ [t]

/-- The five `CREATE TABLE IF NOT EXISTS` statements of the script in order
(six names: the script creates six tables). -/
def schemaTables : List String :=
  ["Weapon", "Type", "Material", "Forgeability", "Enchanting", "EnchantedWith"]

def initSchema (schema : List String) : List String :=
  schemaTables.foldl createTableIfNotExists schema

/-- `createWeapon`: `INSERT INTO Weapon(ID, Name, Type, Material) VALUES(?,?,?,?)`
followed by `connect.commit()`.  `Weapon.ID` is `NOT NULL UNIQUE PRIMARY KEY`,
so sqlite raises an IntegrityError when the ID is already present. -/
def createWeapon (conn : Conn) (weapon : WeaponRow) : Except String Conn :=
  if conn.db.weapon.any (fun r => r.id == weapon.id) then
    Except.error "UNIQUE constraint failed: Weapon.ID"
  else
    Except.ok (commitConn
      { conn with db := { conn.db with weapon := conn.db.weapon ++ [weapon] } })

/-- `createType`: unconstrained insert into `Type`, then `connect.commit()`. -/
def createType (conn : Conn) (t : TypeRow) : Conn :=
  commitConn { conn with db := { conn.db with type := conn.db.type ++ [t] } }

/-- `createMaterial`: unconstrained insert into `Material`, then `connect.commit()`. -/
def createMaterial (conn : Conn) (m : MaterialRow) : Conn :=
  commitConn { conn with db := { conn.db with material := conn.db.material ++ [m] } }

/-- `createForgeability`: unconstrained insert into `Forgeability`, then commit. -/
def createForgeability (conn : Conn) (f : ForgeabilityRow) : Conn :=
  commitConn { conn with db := { conn.db with forgeability := conn.db.forgeability ++ [f] } }

/-- `createEnchanting`: unconstrained insert into `Enchanting`, then commit. -/
def createEnchanting (conn : Conn) (e : EnchantingRow) : Conn :=
  commitConn { conn with db := { conn.db with enchanting := conn.db.enchanting ++ [e] } }

/-- `createEnchantedWith`: unconstrained insert into `EnchantedWith`, then commit. -/
def createEnchantedWith (conn : Conn) (e : EnchantedWithRow) : Conn :=
  commitConn { conn with db := { conn.db with enchantedWith := conn.db.enchantedWith ++ [e] } }

/-- One insert statement of the seed script. -/
inductive SeedOp where
  | insType : TypeRow → SeedOp
  | insMaterial : MaterialRow → SeedOp
  | insWeapon : WeaponRow → SeedOp
  | insForgeability : ForgeabilityRow → SeedOp
  | insEnchanting : EnchantingRow → SeedOp
  | insEnchantedWith : EnchantedWithRow → SeedOp
deriving DecidableEq, Repr

/-- Execute one seed statement on the connection.  Only the `Weapon` insert can
fail (unique ID); every other table has no uniqueness constraint. -/
def applyOp (conn : Conn) (op : SeedOp) : Except String Conn :=
  match op with
  | SeedOp.insType t => Except.ok (createType conn t)
  | SeedOp.insMaterial m => Except.ok (createMaterial conn m)
  | SeedOp.insWeapon w => createWeapon conn w
  | SeedOp.insForgeability f => Except.ok (createForgeability conn f)
  | SeedOp.insEnchanting e => Except.ok (createEnchanting conn e)
  | SeedOp.insEnchantedWith e => Except.ok (createEnchantedWith conn e)

/-- Run a list of seed statements in order, stopping at the first failing one.
Returns the connection state reached, the suffix of statements left when the
failure happened (the failing statement first; `[]` when all succeeded) and the
error, if any.  Statements already executed keep their effects: each successful
insert committed itself. -/
def runOps (conn : Conn) : List SeedOp → Conn × List SeedOp × Option String
  | [] => (conn, [], none)
  | op :: ops =>
    match applyOp conn op with
    | Except.ok conn2 => runOps conn2 ops
    | Except.error e => (conn, op :: ops, some e)

/-! ### Seed data, transcribed row by row from the script (base game first).
`REAL` literals appear scaled by 10000 (`0.75 ↦ 7500`, `9 ↦ 90000`). -/

/-- `type_twohand_sword = ("Two-Handed Sword", 0.7, 1.1, 1.3)`. -/
def type_twohand_sword : TypeRow :=
  { name := "Two-Handed Sword", speed := some 7000, stagger := 11000, reach := some 13000 }

/-- The eight `createType` calls, in script order. -/
def typeOps : List SeedOp :=
  [ SeedOp.insType { name := "One-Handed Sword", speed := some 10000, stagger := 7500, reach := some 10000 },
    SeedOp.insType { name := "One-Handed Axe", speed := some 9000, stagger := 8500, reach := some 10000 },
    SeedOp.insType { name := "One-Handed Mace", speed := some 8000, stagger := 10000, reach := some 10000 },
    SeedOp.insType { name := "One-Handed Dagger", speed := some 13000, stagger := 0, reach := some 7000 },
    SeedOp.insType type_twohand_sword,
    SeedOp.insType { name := "Two-Handed Axe", speed := some 7000, stagger := 11500, reach := some 13000 },
    SeedOp.insType { name := "Two-Handed Mace", speed := some 6000, stagger := 12500, reach := some 13000 },
    SeedOp.insType { name := "Bow", speed := none, stagger := 0, reach := none } ]

/-- `material_ebony_onehand_axe = ("Ebony", 17, 15, 865, None, "Ebony Smithing")`,
the row the first Ebony patch corrects to damage 14. -/
def material_ebony_onehand_axe : MaterialRow :=
  { name := "Ebony", weight := 170000, damage := 15, value := 865,
    speed := none, forgeability := some "Ebony Smithing" }

/-- `material_ebony_onehand_mace = ("Ebony", 19, 16, 1000, None, "Ebony Smithing")`,
the row the second Ebony patch corrects to damage 15. -/
def material_ebony_onehand_mace : MaterialRow :=
  { name := "Ebony", weight := 190000, damage := 16, value := 1000,
    speed := none, forgeability := some "Ebony Smithing" }

/-- The sixty-four base-game `createMaterial` calls, in script order. -/
def materialOps : List SeedOp :=
  [ -- Iron
    SeedOp.insMaterial { name := "Iron", weight := 90000, damage := 7, value := 25, speed := none, forgeability := none },
    SeedOp.insMaterial { name := "Iron", weight := 110000, damage := 8, value := 30, speed := none, forgeability := none },
    SeedOp.insMaterial { name := "Iron", weight := 130000, damage := 9, value := 35, speed := none, forgeability := none },
    SeedOp.insMaterial { name := "Iron", weight := 20000, damage := 4, value := 10, speed := none, forgeability := none },
    SeedOp.insMaterial { name := "Iron", weight := 160000, damage := 15, value := 50, speed := none, forgeability := none },
    SeedOp.insMaterial { name := "Iron", weight := 200000, damage := 16, value := 55, speed := none, forgeability := none },
    SeedOp.insMaterial { name := "Iron", weight := 240000, damage := 18, value := 60, speed := none, forgeability := none },
    -- Steel
    SeedOp.insMaterial { name := "Steel", weight := 100000, damage := 8, value := 45, speed := none, forgeability := some "Steel Smithing" },
    SeedOp.insMaterial { name := "Steel", weight := 120000, damage := 9, value := 55, speed := none, forgeability := some "Steel Smithing" },
    SeedOp.insMaterial { name := "Steel", weight := 140000, damage := 10, value := 65, speed := none, forgeability := some "Steel Smithing" },
    SeedOp.insMaterial { name := "Steel", weight := 20000, damage := 4, value := 10, speed := none, forgeability := some "Steel Smithing" },
    SeedOp.insMaterial { name := "Steel", weight := 170000, damage := 17, value := 90, speed := none, forgeability := some "Steel Smithing" },
    SeedOp.insMaterial { name := "Steel", weight := 210000, damage := 18, value := 100, speed := none, forgeability := some "Steel Smithing" },
    SeedOp.insMaterial { name := "Steel", weight := 250000, damage := 20, value := 110, speed := none, forgeability := some "Steel Smithing" },
    -- Orcish
    SeedOp.insMaterial { name := "Orcish", weight := 110000, damage := 9, value := 75, speed := none, forgeability := some "Orcish Smithing" },
    SeedOp.insMaterial { name := "Orcish", weight := 130000, damage := 10, value := 90, speed := none, forgeability := some "Orcish Smithing" },
    SeedOp.insMaterial { name := "Orcish", weight := 150000, damage := 11, value := 105, speed := none, forgeability := some "Orcish Smithing" },
    SeedOp.insMaterial { name := "Orcish", weight := 30000, damage := 6, value := 30, speed := none, forgeability := some "Orcish Smithing" },
    SeedOp.insMaterial { name := "Orcish", weight := 180000, damage := 18, value := 75, speed := none, forgeability := some "Orcish Smithing" },
    SeedOp.insMaterial { name := "Orcish", weight := 250000, damage := 19, value := 165, speed := none, forgeability := some "Orcish Smithing" },
    SeedOp.insMaterial { name := "Orcish", weight := 260000, damage := 21, value := 180, speed := none, forgeability := some "Orcish Smithing" },
    SeedOp.insMaterial { name := "Orcish", weight := 90000, damage := 10, value := 150, speed := some 8125, forgeability := some "Orcish Smithing" },
    -- Dwarven
    SeedOp.insMaterial { name := "Dwarven", weight := 120000, damage := 10, value := 150, speed := none, forgeability := some "Dwarven Smithing" },
    SeedOp.insMaterial { name := "Dwarven", weight := 140000, damage := 11, value := 165, speed := none, forgeability := some "Dwarven Smithing" },
    SeedOp.insMaterial { name := "Dwarven", weight := 160000, damage := 12, value := 190, speed := none, forgeability := some "Dwarven Smithing" },
    SeedOp.insMaterial { name := "Dwarven", weight := 35000, damage := 7, value := 55, speed := none, forgeability := some "Dwarven Smithing" },
    SeedOp.insMaterial { name := "Dwarven", weight := 190000, damage := 19, value := 270, speed := none, forgeability := some "Dwarven Smithing" },
    SeedOp.insMaterial { name := "Dwarven", weight := 230000, damage := 20, value := 300, speed := none, forgeability := some "Dwarven Smithing" },
    SeedOp.insMaterial { name := "Dwarven", weight := 270000, damage := 22, value := 325, speed := none, forgeability := some "Dwarven Smithing" },
    SeedOp.insMaterial { name := "Dwarven", weight := 100000, damage := 12, value := 270, speed := some 7500, forgeability := some "Dwarven Smithing" },
    -- Elven
    SeedOp.insMaterial { name := "Elven", weight := 130000, damage := 11, value := 235, speed := none, forgeability := some "Elven Smithing" },
    SeedOp.insMaterial { name := "Elven", weight := 150000, damage := 12, value := 280, speed := none, forgeability := some "Elven Smithing" },
    SeedOp.insMaterial { name := "Elven", weight := 170000, damage := 13, value := 330, speed := none, forgeability := some "Elven Smithing" },
    SeedOp.insMaterial { name := "Elven", weight := 40000, damage := 8, value := 95, speed := none, forgeability := some "Elven Smithing" },
    SeedOp.insMaterial { name := "Elven", weight := 200000, damage := 20, value := 470, speed := none, forgeability := some "Elven Smithing" },
    SeedOp.insMaterial { name := "Elven", weight := 240000, damage := 21, value := 520, speed := none, forgeability := some "Elven Smithing" },
    SeedOp.insMaterial { name := "Elven", weight := 280000, damage := 23, value := 565, speed := none, forgeability := some "Elven Smithing" },
    SeedOp.insMaterial { name := "Elven", weight := 120000, damage := 13, value := 470, speed := some 6875, forgeability := some "Elven Smithing" },
    -- Glass
    SeedOp.insMaterial { name := "Glass", weight := 140000, damage := 12, value := 410, speed := none, forgeability := some "Glass Smithing" },
    SeedOp.insMaterial { name := "Glass", weight := 160000, damage := 13, value := 490, speed := none, forgeability := some "Glass Smithing" },
    SeedOp.insMaterial { name := "Glass", weight := 180000, damage := 14, value := 575, speed := none, forgeability := some "Glass Smithing" },
    SeedOp.insMaterial { name := "Glass", weight := 45000, damage := 9, value := 165, speed := none, forgeability := some "Glass Smithing" },
    SeedOp.insMaterial { name := "Glass", weight := 220000, damage := 21, value := 820, speed := none, forgeability := some "Glass Smithing" },
    SeedOp.insMaterial { name := "Glass", weight := 250000, damage := 22, value := 900, speed := none, forgeability := some "Glass Smithing" },
    SeedOp.insMaterial { name := "Glass", weight := 290000, damage := 24, value := 985, speed := none, forgeability := some "Glass Smithing" },
    SeedOp.insMaterial { name := "Glass", weight := 140000, damage := 15, value := 820, speed := some 6250, forgeability := some "Glass Smithing" },
    -- Ebony
    SeedOp.insMaterial { name := "Ebony", weight := 150000, damage := 13, value := 720, speed := none, forgeability := some "Ebony Smithing" },
    SeedOp.insMaterial material_ebony_onehand_axe,
    SeedOp.insMaterial material_ebony_onehand_mace,
    SeedOp.insMaterial { name := "Ebony", weight := 50000, damage := 10, value := 290, speed := none, forgeability := some "Ebony Smithing" },
    SeedOp.insMaterial { name := "Ebony", weight := 220000, damage := 22, value := 1440, speed := none, forgeability := some "Ebony Smithing" },
    SeedOp.insMaterial { name := "Ebony", weight := 260000, damage := 23, value := 1585, speed := none, forgeability := some "Ebony Smithing" },
    SeedOp.insMaterial { name := "Ebony", weight := 300000, damage := 25, value := 1725, speed := none, forgeability := some "Ebony Smithing" },
    SeedOp.insMaterial { name := "Ebony", weight := 160000, damage := 17, value := 1800, speed := some 5625, forgeability := some "Ebony Smithing" },
    -- Daedric
    SeedOp.insMaterial { name := "Daedric", weight := 160000, damage := 14, value := 1250, speed := none, forgeability := some "Daedric Smithing" },
    SeedOp.insMaterial { name := "Daedric", weight := 180000, damage := 15, value := 1500, speed := none, forgeability := some "Daedric Smithing" },
    SeedOp.insMaterial { name := "Daedric", weight := 200000, damage := 16, value := 1750, speed := none, forgeability := some "Daedric Smithing" },
    SeedOp.insMaterial { name := "Daedric", weight := 60000, damage := 11, value := 500, speed := none, forgeability := some "Daedric Smithing" },
    SeedOp.insMaterial { name := "Daedric", weight := 230000, damage := 24, value := 2500, speed := none, forgeability := some "Daedric Smithing" },
    SeedOp.insMaterial { name := "Daedric", weight := 270000, damage := 25, value := 2750, speed := none, forgeability := some "Daedric Smithing" },
    SeedOp.insMaterial { name := "Daedric", weight := 310000, damage := 27, value := 4000, speed := none, forgeability := some "Daedric Smithing" },
    SeedOp.insMaterial { name := "Daedric", weight := 180000, damage := 19, value := 2500, speed := some 5000, forgeability := some "Daedric Smithing" },
    -- Miscellaneous archery-special materials
    SeedOp.insMaterial { name := "Long", weight := 50000, damage := 6, value := 30, speed := some 10000, forgeability := none },
    SeedOp.insMaterial { name := "Hunting", weight := 70000, damage := 7, value := 50, speed := some 9375, forgeability := none } ]

/-- `weapon_iron_onehand_sword = ("00012eb7", "Iron Sword", "One-Handed Sword", "Iron")`:
the first `createWeapon` call of the script. -/
def weapon_iron_onehand_sword : WeaponRow :=
  { id := "00012eb7", name := "Iron Sword", type := "One-Handed Sword", material := "Iron" }

/-- `weapon_iron_bow = ("00000000", "Iron Bow", "Archery", "Iron")`, inserted then deleted. -/
def weapon_iron_bow : WeaponRow :=
  { id := "00000000", name := "Iron Bow", type := "Archery", material := "Iron" }

/-- `weapon_steel_bow = ("01010101", "Steel Bow", "Archery", "Steel")`, inserted then deleted. -/
def weapon_steel_bow : WeaponRow :=
  { id := "01010101", name := "Steel Bow", type := "Archery", material := "Steel" }

/-- The sixty-six base-game `createWeapon` calls, in script order.  Note two
literal quirks of the source, preserved: the Daedric Mace row carries type
`"One-Handed Axe"`, and every bow row carries type `"Archery"` although the
`Type` table's archery row is named `"Bow"`. -/
def weaponOps : List SeedOp :=
  [ -- Iron melee
    SeedOp.insWeapon weapon_iron_onehand_sword,
    SeedOp.insWeapon { id := "00013790", name := "Iron War Axe", type := "One-Handed Axe", material := "Iron" },
    SeedOp.insWeapon { id := "00013982", name := "Iron Mace", type := "One-Handed Mace", material := "Iron" },
    SeedOp.insWeapon { id := "0001397e", name := "Iron Dagger", type := "One-Handed Dagger", material := "Iron" },
    SeedOp.insWeapon { id := "0001359d", name := "Iron Greatsword", type := "Two-Handed Sword", material := "Iron" },
    SeedOp.insWeapon { id := "00013980", name := "Iron Battleaxe", type := "Two-Handed Axe", material := "Iron" },
    SeedOp.insWeapon { id := "00013981", name := "Iron Warhammer", type := "Two-Handed Mace", material := "Iron" },
    -- Steel melee
    SeedOp.insWeapon { id := "00013989", name := "Steel Sword", type := "One-Handed Sword", material := "Steel" },
    SeedOp.insWeapon { id := "00013983", name := "Steel War Axe", type := "One-Handed Axe", material := "Steel" },
    SeedOp.insWeapon { id := "00013988", name := "Steel Mace", type := "One-Handed Mace", material := "Steel" },
    SeedOp.insWeapon { id := "00013986", name := "Steel Dagger", type := "One-Handed Dagger", material := "Steel" },
    SeedOp.insWeapon { id := "00013987", name := "Steel Greatsword", type := "Two-Handed Sword", material := "Steel" },
    SeedOp.insWeapon { id := "00013984", name := "Steel Battleaxe", type := "Two-Handed Axe", material := "Steel" },
    SeedOp.insWeapon { id := "0001398a", name := "Steel Warhammer", type := "Two-Handed Mace", material := "Steel" },
    -- Orcish melee
    SeedOp.insWeapon { id := "00013991", name := "Orcish Sword", type := "One-Handed Sword", material := "Orcish" },
    SeedOp.insWeapon { id := "0001398b", name := "Orcish War Axe", type := "One-Handed Axe", material := "Orcish" },
    SeedOp.insWeapon { id := "00013990", name := "Orcish Mace", type := "One-Handed Mace", material := "Orcish" },
    SeedOp.insWeapon { id := "0001398e", name := "Orcish Dagger", type := "One-Handed Dagger", material := "Orcish" },
    SeedOp.insWeapon { id := "0001398f", name := "Orcish Greatsword", type := "Two-Handed Sword", material := "Orcish" },
    SeedOp.insWeapon { id := "0001398c", name := "Orcish Battleaxe", type := "Two-Handed Axe", material := "Orcish" },
    SeedOp.insWeapon { id := "00013992", name := "Orcish Warhammer", type := "Two-Handed Mace", material := "Orcish" },
    -- Dwarven melee
    SeedOp.insWeapon { id := "00013999", name := "Dwarven Sword", type := "One-Handed Sword", material := "Dwarven" },
    SeedOp.insWeapon { id := "00013993", name := "Dwarven War Axe", type := "One-Handed Axe", material := "Dwarven" },
    SeedOp.insWeapon { id := "00013998", name := "Dwarven Mace", type := "One-Handed Mace", material := "Dwarven" },
    SeedOp.insWeapon { id := "00013996", name := "Dwarven Dagger", type := "One-Handed Dagger", material := "Dwarven" },
    SeedOp.insWeapon { id := "00013997", name := "Dwarven Greatsword", type := "Two-Handed Sword", material := "Dwarven" },
    SeedOp.insWeapon { id := "00013994", name := "Dwarven Battleaxe", type := "Two-Handed Axe", material := "Dwarven" },
    SeedOp.insWeapon { id := "0001399a", name := "Dwarven Warhammer", type := "Two-Handed Mace", material := "Dwarven" },
    -- Elven melee
    SeedOp.insWeapon { id := "000139a1", name := "Elven Sword", type := "One-Handed Sword", material := "Elven" },
    SeedOp.insWeapon { id := "0001399b", name := "Elven War Axe", type := "One-Handed Axe", material := "Elven" },
    SeedOp.insWeapon { id := "000139a0", name := "Elven Mace", type := "One-Handed Mace", material := "Elven" },
    SeedOp.insWeapon { id := "0001399e", name := "Elven Dagger", type := "One-Handed Dagger", material := "Elven" },
    SeedOp.insWeapon { id := "0001399f", name := "Elven Greatsword", type := "Two-Handed Sword", material := "Elven" },
    SeedOp.insWeapon { id := "0001399c", name := "Elven Battleaxe", type := "Two-Handed Axe", material := "Elven" },
    SeedOp.insWeapon { id := "000139a2", name := "Elven Warhammer", type := "Two-Handed Mace", material := "Elven" },
    -- Glass melee
    SeedOp.insWeapon { id := "000139a9", name := "Glass Sword", type := "One-Handed Sword", material := "Glass" },
    SeedOp.insWeapon { id := "000139a3", name := "Glass War Axe", type := "One-Handed Axe", material := "Glass" },
    SeedOp.insWeapon { id := "000139a8", name := "Glass Mace", type := "One-Handed Mace", material := "Glass" },
    SeedOp.insWeapon { id := "000139a6", name := "Glass Dagger", type := "One-Handed Dagger", material := "Glass" },
    SeedOp.insWeapon { id := "000139a7", name := "Glass Greatsword", type := "Two-Handed Sword", material := "Glass" },
    SeedOp.insWeapon { id := "000139a4", name := "Glass Battleaxe", type := "Two-Handed Axe", material := "Glass" },
    SeedOp.insWeapon { id := "000139aa", name := "Glass Warhammer", type := "Two-Handed Mace", material := "Glass" },
    -- Ebony melee
    SeedOp.insWeapon { id := "000139b1", name := "Ebony Sword", type := "One-Handed Sword", material := "Ebony" },
    SeedOp.insWeapon { id := "000139ab", name := "Ebony War Axe", type := "One-Handed Axe", material := "Ebony" },
    SeedOp.insWeapon { id := "000139b0", name := "Ebony Mace", type := "One-Handed Mace", material := "Ebony" },
    SeedOp.insWeapon { id := "000139ae", name := "Ebony Dagger", type := "One-Handed Dagger", material := "Ebony" },
    SeedOp.insWeapon { id := "000139af", name := "Ebony Greatsword", type := "Two-Handed Sword", material := "Ebony" },
    SeedOp.insWeapon { id := "000139ac", name := "Ebony Battleaxe", type := "Two-Handed Axe", material := "Ebony" },
    SeedOp.insWeapon { id := "000139b2", name := "Ebony Warhammer", type := "Two-Handed Mace", material := "Ebony" },
    -- Daedric melee
    SeedOp.insWeapon { id := "000139b9", name := "Daedric Sword", type := "One-Handed Sword", material := "Daedric" },
    SeedOp.insWeapon { id := "000139b3", name := "Daedric War Axe", type := "One-Handed Axe", material := "Daedric" },
    SeedOp.insWeapon { id := "000139b8", name := "Daedric Mace", type := "One-Handed Axe", material := "Daedric" },
    SeedOp.insWeapon { id := "000139b6", name := "Daedric Dagger", type := "One-Handed Dagger", material := "Daedric" },
    SeedOp.insWeapon { id := "000139b7", name := "Daedric Greatsword", type := "Two-Handed Sword", material := "Daedric" },
    SeedOp.insWeapon { id := "000139b4", name := "Daedric Battleaxe", type := "Two-Handed Axe", material := "Daedric" },
    SeedOp.insWeapon { id := "000139ba", name := "Daedric Warhammer", type := "Two-Handed Mace", material := "Daedric" },
    -- Bows
    SeedOp.insWeapon { id := "0003b562", name := "Long Bow", type := "Archery", material := "Long" },
    SeedOp.insWeapon { id := "00013985", name := "Hunting Bow", type := "Archery", material := "Hunting" },
    SeedOp.insWeapon weapon_iron_bow,
    SeedOp.insWeapon weapon_steel_bow,
    SeedOp.insWeapon { id := "0001398d", name := "Orcish Bow", type := "Archery", material := "Orcish" },
    SeedOp.insWeapon { id := "00013995", name := "Dwarven Bow", type := "Archery", material := "Dwarven" },
    SeedOp.insWeapon { id := "0001399d", name := "Elven Bow", type := "Archery", material := "Elven" },
    SeedOp.insWeapon { id := "000139a5", name := "Glass Bow", type := "Archery", material := "Glass" },
    SeedOp.insWeapon { id := "000139ad", name := "Ebony Bow", type := "Archery", material := "Ebony" },
    SeedOp.insWeapon { id := "000139b5", name := "Daedric Bow", type := "Archery", material := "Daedric" } ]

/-- The seven base-game `createForgeability` calls, in script order. -/
def forgeabilityOps : List SeedOp :=
  [ SeedOp.insForgeability { level := 2, perkName := "Steel Smithing" },
    SeedOp.insForgeability { level := 6, perkName := "Orcish Smithing" },
    SeedOp.insForgeability { level := 12, perkName := "Dwarven Smithing" },
    SeedOp.insForgeability { level := 19, perkName := "Elven Smithing" },
    SeedOp.insForgeability { level := 27, perkName := "Glass Smithing" },
    SeedOp.insForgeability { level := 36, perkName := "Ebony Smithing" },
    SeedOp.insForgeability { level := 46, perkName := "Daedric Smithing" } ]

/-- The twelve `createEnchanting` calls, in script order. -/
def enchantingOps : List SeedOp :=
  [ SeedOp.insEnchanting { name := "Banish", effect := "Sends conjured Daedra back to Oblivion", weapon := "One-Handed Sword" },
    SeedOp.insEnchanting { name := "Chaos", effect := "Randomized frost, fire, sparks damage", weapon := "One-Handed Axe" },
    SeedOp.insEnchanting { name := "Frost", effect := "Frost damage and drain stamina", weapon := "One-Handed Mace" },
    SeedOp.insEnchanting { name := "Fear", effect := "People/creatures at a certain level flee", weapon := "One-Handed Dagger" },
    SeedOp.insEnchanting { name := "Fire", effect := "Fire damage and setting targets on fire", weapon := "Two-Handed Sword" },
    SeedOp.insEnchanting { name := "Paralyze", effect := "Paralyzes people/creatures for a certain time", weapon := "Two-Handed Axe" },
    SeedOp.insEnchanting { name := "Shock", effect := "Shock damage and drain magicka", weapon := "Two-Handed Mace" },
    SeedOp.insEnchanting { name := "Water", effect := "Water damage and draining magicka", weapon := "Bow" },
    SeedOp.insEnchanting { name := "HealthDrain", effect := "Drains health from people/creatures at a certain rate", weapon := "One-Handed Sword" },
    SeedOp.insEnchanting { name := "StaminaDrain", effect := "Drains stamina from people/creatures at a certain rate", weapon := "One-Handed Axe" },
    SeedOp.insEnchanting { name := "MagickaDrain", effect := "Drains magicka from people/creatures at a certain rate", weapon := "One-Handed Mace" },
    SeedOp.insEnchanting { name := "SoulTrap", effect := "Upon death, the persons/creatures soul is absorbed into a soul gem", weapon := "One-Handed Dagger" } ]

/-- The two `createEnchantedWith` calls. -/
def enchantedWithOps : List SeedOp :=
  [ SeedOp.insEnchantedWith { id := "00012eb7", enchantmentName := "HealthDrain" },
    SeedOp.insEnchantedWith { id := "0001398d", enchantmentName := "Water" } ]

/-- `addDragonbornDLC()`: Nordic and Stalhrim materials, weapons, and the
`(18, "Advanced Armors")` forgeability row, in script order. -/
def dragonbornDLCOps : List SeedOp :=
  [ -- Nordic materials
    SeedOp.insMaterial { name := "Nordic", weight := 120000, damage := 11, value := 290, speed := none, forgeability := some "Advanced Armors" },
    SeedOp.insMaterial { name := "Nordic", weight := 140000, damage := 12, value := 350, speed := none, forgeability := some "Advanced Armors" },
    SeedOp.insMaterial { name := "Nordic", weight := 160000, damage := 13, value := 410, speed := none, forgeability := some "Advanced Armors" },
    SeedOp.insMaterial { name := "Nordic", weight := 35000, damage := 8, value := 115, speed := none, forgeability := some "Advanced Armors" },
    SeedOp.insMaterial { name := "Nordic", weight := 190000, damage := 20, value := 585, speed := none, forgeability := some "Advanced Armors" },
    SeedOp.insMaterial { name := "Nordic", weight := 230000, damage := 21, value := 650, speed := none, forgeability := some "Advanced Armors" },
    SeedOp.insMaterial { name := "Nordic", weight := 270000, damage := 23, value := 700, speed := none, forgeability := some "Advanced Armors" },
    SeedOp.insMaterial { name := "Nordic", weight := 110000, damage := 13, value := 580, speed := some 6875, forgeability := some "Advanced Armors" },
    -- Stalhrim materials
    SeedOp.insMaterial { name := "Stalhrim", weight := 140000, damage := 13, value := 985, speed := none, forgeability := some "Ebony Smithing" },
    SeedOp.insMaterial { name := "Stalhrim", weight := 160000, damage := 15, value := 1180, speed := none, forgeability := some "Ebony Smithing" },
    SeedOp.insMaterial { name := "Stalhrim", weight := 180000, damage := 16, value := 1375, speed := none, forgeability := some "Ebony Smithing" },
    SeedOp.insMaterial { name := "Stalhrim", weight := 45000, damage := 10, value := 395, speed := none, forgeability := some "Ebony Smithing" },
    SeedOp.insMaterial { name := "Stalhrim", weight := 210000, damage := 23, value := 1970, speed := none, forgeability := some "Ebony Smithing" },
    SeedOp.insMaterial { name := "Stalhrim", weight := 250000, damage := 24, value := 2150, speed := none, forgeability := some "Ebony Smithing" },
    SeedOp.insMaterial { name := "Stalhrim", weight := 290000, damage := 26, value := 2850, speed := none, forgeability := some "Ebony Smithing" },
    SeedOp.insMaterial { name := "Stalhrim", weight := 150000, damage := 17, value := 1800, speed := some 5625, forgeability := some "Ebony Smithing" },
    -- Nordic weapons
    SeedOp.insWeapon { id := "xx01cdb1", name := "Nordic Sword", type := "One-Handed Sword", material := "Nordic" },
    SeedOp.insWeapon { id := "xx01cdb2", name := "Nordic War Axe", type := "One-Handed Axe", material := "Nordic" },
    SeedOp.insWeapon { id := "xx01cdb0", name := "Nordic Mace", type := "One-Handed Mace", material := "Nordic" },
    SeedOp.insWeapon { id := "xx01cdae", name := "Nordic Dagger", type := "One-Handed Dagger", material := "Nordic" },
    SeedOp.insWeapon { id := "xx01cdaf", name := "Nordic Greatsword", type := "Two-Handed Sword", material := "Nordic" },
    SeedOp.insWeapon { id := "xx01cdad", name := "Nordic Battleaxe", type := "Two-Handed Axe", material := "Nordic" },
    SeedOp.insWeapon { id := "xx01cdb3", name := "Nordic Warhammer", type := "Two-Handed Mace", material := "Nordic" },
    SeedOp.insWeapon { id := "xx026232", name := "Nordic Bow", type := "Archery", material := "Nordic" },
    -- Stalhrim weapons
    SeedOp.insWeapon { id := "xx01cdb8", name := "Stalhrim Sword", type := "One-Handed Sword", material := "Stalhrim" },
    SeedOp.insWeapon { id := "xx01cdb9", name := "Stalhrim War Axe", type := "One-Handed Axe", material := "Stalhrim" },
    SeedOp.insWeapon { id := "xx01cdb7", name := "Stalhrim Mace", type := "One-Handed Mace", material := "Stalhrim" },
    SeedOp.insWeapon { id := "xx01cdb5", name := "Stalhrim Dagger", type := "One-Handed Dagger", material := "Stalhrim" },
    SeedOp.insWeapon { id := "xx01cdb6", name := "Stalhrim Greatsword", type := "Two-Handed Sword", material := "Stalhrim" },
    SeedOp.insWeapon { id := "xx01cdb4", name := "Stalhrim Battleaxe", type := "Two-Handed Axe", material := "Stalhrim" },
    SeedOp.insWeapon { id := "xx01cdba", name := "Stalhrim Warhammer", type := "Two-Handed Mace", material := "Stalhrim" },
    SeedOp.insWeapon { id := "xx026231", name := "Stalhrim Bow", type := "Archery", material := "Stalhrim" },
    -- Forgeability
    SeedOp.insForgeability { level := 18, perkName := "Advanced Armors" } ]

/-- `addDawngaurdDLC()`: Dragonbone materials, weapons, and the
`(100, "Dragon Armor")` forgeability row, in script order. -/
def dawnguardDLCOps : List SeedOp :=
  [ SeedOp.insMaterial { name := "Dragonbone", weight := 190000, damage := 15, value := 1500, speed := none, forgeability := some "Dragon Armor" },
    SeedOp.insMaterial { name := "Dragonbone", weight := 210000, damage := 16, value := 1700, speed := none, forgeability := some "Dragon Armor" },
    SeedOp.insMaterial { name := "Dragonbone", weight := 220000, damage := 17, value := 2000, speed := none, forgeability := some "Dragon Armor" },
    SeedOp.insMaterial { name := "Dragonbone", weight := 65000, damage := 12, value := 600, speed := none, forgeability := some "Dragon Armor" },
    SeedOp.insMaterial { name := "Dragonbone", weight := 270000, damage := 25, value := 2725, speed := none, forgeability := some "Dragon Armor" },
    SeedOp.insMaterial { name := "Dragonbone", weight := 300000, damage := 26, value := 3000, speed := none, forgeability := some "Dragon Armor" },
    SeedOp.insMaterial { name := "Dragonbone", weight := 330000, damage := 28, value := 4275, speed := none, forgeability := some "Dragon Armor" },
    SeedOp.insMaterial { name := "Dragonbone", weight := 200000, damage := 20, value := 2760, speed := some 7500, forgeability := some "Dragon Armor" },
    SeedOp.insWeapon { id := "xx014fce", name := "Dragonbone Sword", type := "One-Handed Sword", material := "Dragonbone" },
    SeedOp.insWeapon { id := "xx014fcf", name := "Dragonbone War Axe", type := "One-Handed Axe", material := "Dragonbone" },
    SeedOp.insWeapon { id := "xx014fcd", name := "Dragonbone Mace", type := "One-Handed Mace", material := "Dragonbone" },
    SeedOp.insWeapon { id := "xx014fcb", name := "Dragonbone Dagger", type := "One-Handed Dagger", material := "Dragonbone" },
    SeedOp.insWeapon { id := "xx014fcc", name := "Dragonbone Greatsword", type := "Two-Handed Sword", material := "Dragonbone" },
    SeedOp.insWeapon { id := "xx014fc3", name := "Dragonbone Battleaxe", type := "Two-Handed Axe", material := "Dragonbone" },
    SeedOp.insWeapon { id := "xx014fd0", name := "Dragonbone Warhammer", type := "Two-Handed Mace", material := "Dragonbone" },
    SeedOp.insWeapon { id := "xx0176f1", name := "Dragonbone Bow", type := "Archery", material := "Dragonbone" },
    SeedOp.insForgeability { level := 100, perkName := "Dragon Armor" } ]

/-- SEED LOADER: every insert statement of one full script run, in execution
order (types, base materials, base weapons, forgeability, enchantments,
enchanted-with pairs, then the two DLC batches). -/
def seedOps : List SeedOp :=
  typeOps ++ materialOps ++ weaponOps ++ forgeabilityOps ++ enchantingOps ++
    enchantedWithOps ++ dragonbornDLCOps ++ dawnguardDLCOps

/-- Result of the first seed run on the fresh connection. -/
def seededRun : Conn × List SeedOp × Option String := runOps conn0 seedOps

/-- Connection state after the first (successful) seed run. -/
def seededConn : Conn := seededRun.1

/-! ### Patch Applier.  Each source patch function prints the matching rows,
executes one `UPDATE` or `DELETE` with bound parameters, and mentions
`connect.commit` without calling it, so the mutation reaches `db` but never
`committed`. -/

/-- `updateTwoHandedSwordSpeed`: `UPDATE Type SET Speed = ? WHERE Name = ?`,
applied with `update = (0.75, "Two-Handed Sword")`. -/
def updateTwoHandedSwordSpeed (conn : Conn) (update : Nat × String) : Conn :=
  { conn with db := { conn.db with type := (conn.db.type.map
      (fun r => if r.name == update.2 then { r with speed := some update.1 } else r)) } }

/-- `updateEbonyOneHandedAxe`: `UPDATE material SET Damage = ? WHERE Name = ? AND
Damage = ?`, applied with `update = (14, "Ebony", 15)`. -/
def updateEbonyOneHandedAxe (conn : Conn) (update : Nat × String × Nat) : Conn :=
  { conn with db := { conn.db with material := (conn.db.material.map
      (fun r => if r.name == update.2.1 && r.damage == update.2.2
                then { r with damage := update.1 } else r)) } }

/-- `updateEbonyOneHandedMace`: the same `UPDATE` statement, applied with
`update = (15, "Ebony", 16)`. -/
def updateEbonyOneHandedMace (conn : Conn) (update : Nat × String × Nat) : Conn :=
  { conn with db := { conn.db with material := (conn.db.material.map
      (fun r => if r.name == update.2.1 && r.damage == update.2.2
                then { r with damage := update.1 } else r)) } }

/-- `deleteIronBow`: `DELETE FROM weapon WHERE Name = ?`, applied with `"Iron Bow"`. -/
def deleteIronBow (conn : Conn) (deletion : String) : Conn :=
  { conn with db := { conn.db with weapon :=
      (conn.db.weapon.filter (fun r => !(r.name == deletion))) } }

/-- `deleteSteelBow`: the same `DELETE` statement, applied with `"Steel Bow"`. -/
def deleteSteelBow (conn : Conn) (deletion : String) : Conn :=
  { conn with db := { conn.db with weapon :=
      (conn.db.weapon.filter (fun r => !(r.name == deletion))) } }

/-- Connection after the first patch (`Type.Speed` of Two-Handed Sword set to 0.75). -/
def afterSpeedUpdate : Conn := updateTwoHandedSwordSpeed seededConn (7500, "Two-Handed Sword")

/-- Connection after the second patch (Ebony rows with damage 15 set to 14). -/
def afterEbonyAxeUpdate : Conn := updateEbonyOneHandedAxe afterSpeedUpdate (14, "Ebony", 15)

/-- Connection after the third patch (Ebony rows with damage 16 set to 15). -/
def afterEbonyMaceUpdate : Conn := updateEbonyOneHandedMace afterEbonyAxeUpdate (15, "Ebony", 16)

/-- Connection after the fourth patch (Iron Bow deleted). -/
def afterIronBowDelete : Conn := deleteIronBow afterEbonyMaceUpdate "Iron Bow"

/-- Connection after all five patches, the state the report queries run on. -/
def patchedConn : Conn := deleteSteelBow afterIronBowDelete "Steel Bow"

/-! ### Report Runner: the seven read-only queries, each a filtered projection. -/

/-- Query 1, `selectIronWeapons`: `SELECT Name FROM Weapon WHERE Material = 'Iron'`. -/
def selectIronWeapons (db : DB) : List String :=
  (db.weapon.filter (fun r => r.material == "Iron")).map (fun r => r.name)

/-- Query 2, `selectBowsBySpeed`: `SELECT Name FROM Material WHERE Speed >= 0.75`
(a `NULL` speed never satisfies the comparison). -/
def selectBowsBySpeed (db : DB) : List String :=
  (db.material.filter (fun r =>
    match r.speed with
    | some s => decide (7500 ≤ s)
    | none => false)).map (fun r => r.name)

/-- Query 3, `selectEnchantedWeapons`: `SELECT * FROM EnchantedWith`. -/
def selectEnchantedWeapons (db : DB) : List EnchantedWithRow :=
  db.enchantedWith

/-- Query 4, `selectForgeabilityPerkLevel`:
`SELECT Perk_Name FROM Forgeability WHERE Level > 20`. -/
def selectForgeabilityPerkLevel (db : DB) : List String :=
  (db.forgeability.filter (fun r => decide (20 < r.level))).map (fun r => r.perkName)

/-- Query 5, `selectAllDwarvenAxes`: the one-handed query concatenated with the
two-handed query, printed under one heading. -/
def selectAllDwarvenAxes (db : DB) : List String :=
  ((db.weapon.filter (fun r => r.material == "Dwarven" && r.type == "One-Handed Axe")).map
    (fun r => r.name)) ++
  ((db.weapon.filter (fun r => r.material == "Dwarven" && r.type == "Two-Handed Axe")).map
    (fun r => r.name))

/-- Query 6, `selectEnchantmentsForWarhammers`:
`SELECT Name, Effect FROM Enchanting WHERE Weapon = 'Two-Handed Mace'`. -/
def selectEnchantmentsForWarhammers (db : DB) : List (String × String) :=
  (db.enchanting.filter (fun r => r.weapon == "Two-Handed Mace")).map
    (fun r => (r.name, r.effect))

/-- Query 7, `selectHighestDamage`:
`SELECT Damage, Weight, Name FROM Material WHERE Damage > 13`. -/
def selectHighestDamage (db : DB) : List (Nat × Nat × String) :=
  (db.material.filter (fun r => decide (13 < r.damage))).map
    (fun r => (r.damage, r.weight, r.name))

/-! ### Schema initializer lemmas (claim C5). -/

lemma mem_createTableIfNotExists_of_mem (s : List String) (u t : String) (ht : t ∈ s) :
    t ∈ createTableIfNotExists s u := by
  unfold createTableIfNotExists
  split
  · exact ht
  · exact List.mem_append_left _ ht

lemma self_mem_createTableIfNotExists (s : List String) (t : String) :
    t ∈ createTableIfNotExists s t := by
  unfold createTableIfNotExists
  split
  · assumption
  · exact List.mem_append_right _ (List.mem_singleton.mpr rfl)

lemma mem_foldl_createTableIfNotExists (ts : List String) :
    ∀ (s : List String) (t : String), t ∈ s → t ∈ ts.foldl createTableIfNotExists s := by
  induction ts with
  | nil => intro s t ht; exact ht
  | cons u us ih =>
      intro s t ht
      exact ih (createTableIfNotExists s u) t (mem_createTableIfNotExists_of_mem s u t ht)

lemma foldl_createTableIfNotExists_mem (ts : List String) :
    ∀ (s : List String) (t : String), t ∈ ts → t ∈ ts.foldl createTableIfNotExists s := by
  induction ts with
  | nil => intro s t ht; cases ht
  | cons u us ih =>
      intro s t ht
      rcases List.mem_cons.mp ht with h | h
      · subst h
        exact mem_foldl_createTableIfNotExists us (createTableIfNotExists s t) t
          (self_mem_createTableIfNotExists s t)
      · exact ih (createTableIfNotExists s u) t h

lemma foldl_createTableIfNotExists_eq_of_mem (ts : List String) :
    ∀ (s : List String), (∀ t ∈ ts, t ∈ s) → ts.foldl createTableIfNotExists s = s := by
  induction ts with
  | nil => intro s h; rfl
  | cons u us ih =>
      intro s h
      have hu : createTableIfNotExists s u = s := by
        unfold createTableIfNotExists
        exact if_pos (h u (List.mem_cons_self u us))
      calc (u :: us).foldl createTableIfNotExists s
          = us.foldl createTableIfNotExists (createTableIfNotExists s u) := rfl
        _ = us.foldl createTableIfNotExists s := by rw [hu]
        _ = s := ih s (fun t ht => h t (List.mem_cons_of_mem u ht))

set_option maxRecDepth 1000000

/-- Claim C5: running the Schema Initializer twice in succession is idempotent:
the second invocation produces no error (it is a total function), creates no
duplicate tables, and leaves the schema exactly as after the first invocation.
On a fresh store the initializer creates precisely the six distinct tables. -/
theorem claim_c5 :
    (∀ s : List String, initSchema (initSchema s) = initSchema s) ∧
    (initSchema []).Nodup ∧ initSchema [] = schemaTables := by
  refine ⟨?_, by decide, by decide⟩
  intro s
  exact foldl_createTableIfNotExists_eq_of_mem schemaTables (initSchema s)
    (fun t ht => foldl_createTableIfNotExists_mem schemaTables s t ht)

/-! ### Claim theorems about the seeded, patched and re-seeded states. -/

/-- Counterexample to claim C1 as stated: after the Patch Applier has run there
IS a Material row named `"Ebony"` with Damage 15 — the one-handed mace row,
which the second correction moved from 16 to 15 (weight 19, value 1000).  The
full post-patch Ebony damage column is `[13, 14, 15, 10, 22, 23, 25, 17]`. -/
theorem claim_c1_counterexample :
    (patchedConn.db.material.any (fun r => r.name == "Ebony" && r.damage == 15)) = true ∧
    patchedConn.db.material.filter (fun r => r.name == "Ebony" && r.damage == 15) =
      [{ name := "Ebony", weight := 190000, damage := 15, value := 1000,
         speed := none, forgeability := some "Ebony Smithing" }] := by
  exact ⟨by decide, by decide⟩

/-- Claim C1, amended: after the Patch Applier has run, no Material row named
`"Ebony"` has Damage 16; the Ebony damage column equals the seeded column with
the remap `15 ↦ 14`, `16 ↦ 15` applied simultaneously, so each affected row is
moved exactly once (the former 16 ends at 15, not chained down to 14); and the
only remaining Damage-15 row is the corrected one-handed mace. -/
theorem claim_c1 :
    (patchedConn.db.material.all (fun r => !(r.name == "Ebony" && r.damage == 16))) = true ∧
    (patchedConn.db.material.filter (fun r => r.name == "Ebony")).map (fun r => r.damage) =
      ((seededConn.db.material.filter (fun r => r.name == "Ebony")).map (fun r => r.damage)).map
        (fun d => if d == 15 then 14 else if d == 16 then 15 else d) ∧
    (patchedConn.db.material.filter (fun r => r.name == "Ebony")).map (fun r => r.damage) =
      [13, 14, 15, 10, 22, 23, 25, 17] := by
  exact ⟨by decide, by decide, by decide⟩

/-- Claim C2: Query 1 on the seeded and patched store returns exactly the seven
Iron melee weapon names, in insertion order, and Iron Bow is not among them
because its row was deleted. -/
theorem claim_c2 :
    selectIronWeapons patchedConn.db =
      ["Iron Sword", "Iron War Axe", "Iron Mace", "Iron Dagger", "Iron Greatsword",
       "Iron Battleaxe", "Iron Warhammer"] ∧
    "Iron Bow" ∉ selectIronWeapons patchedConn.db := by
  exact ⟨by decide, by decide⟩

/-- Claim C3: Query 4 on the full seeded dataset (both DLC forgeability rows
included) returns exactly Glass Smithing, Ebony Smithing, Daedric Smithing and
Dragon Armor; Elven Smithing sits at level 19, is not `> 20`, and is excluded,
as is every other perk of level at most 20. -/
theorem claim_c3 :
    selectForgeabilityPerkLevel seededConn.db =
      ["Glass Smithing", "Ebony Smithing", "Daedric Smithing", "Dragon Armor"] ∧
    "Elven Smithing" ∉ selectForgeabilityPerkLevel seededConn.db ∧
    seededConn.db.forgeability.filter (fun r => r.perkName == "Elven Smithing") =
      [{ level := 19, perkName := "Elven Smithing" }] ∧
    (seededConn.db.forgeability.filter (fun r => decide (r.level ≤ 20))).map
        (fun r => r.perkName) =
      ["Steel Smithing", "Orcish Smithing", "Dwarven Smithing", "Elven Smithing",
       "Advanced Armors"] := by
  exact ⟨by decide, by decide, by decide, by decide⟩

/-- Claim C4: the first seed run on a fresh store succeeds completely; running
the Seed Loader a second time on the populated store fails with the unique-ID
violation on `Weapon.ID`, and the statement it fails on is the very first
Weapon insertion of the seed (`weapon_iron_onehand_sword`, ID `"00012eb7"`),
whose ID the first run already inserted; no Weapon row is added by the failed
run. -/
theorem claim_c4 :
    seededRun.2.2 = none ∧ seededRun.2.1 = [] ∧
    (runOps seededConn seedOps).2.2 = some "UNIQUE constraint failed: Weapon.ID" ∧
    (runOps seededConn seedOps).2.1.head? = some (SeedOp.insWeapon weapon_iron_onehand_sword) ∧
    seededConn.db.weapon.any (fun r => r.id == weapon_iron_onehand_sword.id) = true ∧
    (runOps seededConn seedOps).1.db.weapon = seededConn.db.weapon := by
  exact ⟨by decide, by decide, by decide, by decide, by decide, by decide⟩

/-- Claim C6: after the Patch Applier has run, no Weapon row is named
`"Iron Bow"` or `"Steel Bow"`; the two deletions removed exactly the rows whose
`Name` equals the bound parameter (the weapon table went from 90 rows to 88 and
equals the pre-deletion table filtered by those two names), leaving every other
Weapon row unchanged and in place. -/
theorem claim_c6 :
    patchedConn.db.weapon.all
      (fun r => !(r.name == "Iron Bow") && !(r.name == "Steel Bow")) = true ∧
    patchedConn.db.weapon = afterEbonyMaceUpdate.db.weapon.filter
      (fun r => !(r.name == "Iron Bow") && !(r.name == "Steel Bow")) ∧
    afterEbonyMaceUpdate.db.weapon.length = 90 ∧
    patchedConn.db.weapon.length = 88 := by
  exact ⟨by decide, by decide, by decide, by decide⟩

/-- Claim C7: the first patch rewrites only the `Speed` of the
`"Two-Handed Sword"` row of `Type` from 0.7 to 0.75 (7000 to 7500 in 1/10000
units); its `Name`, `Stagger` and `Reach` keep their seeded values, every other
`Type` row is untouched, and no other table of the database changes. -/
theorem claim_c7 :
    afterSpeedUpdate.db = { seededConn.db with type :=
      [ { name := "One-Handed Sword", speed := some 10000, stagger := 7500, reach := some 10000 },
        { name := "One-Handed Axe", speed := some 9000, stagger := 8500, reach := some 10000 },
        { name := "One-Handed Mace", speed := some 8000, stagger := 10000, reach := some 10000 },
        { name := "One-Handed Dagger", speed := some 13000, stagger := 0, reach := some 7000 },
        { name := "Two-Handed Sword", speed := some 7500, stagger := 11000, reach := some 13000 },
        { name := "Two-Handed Axe", speed := some 7000, stagger := 11500, reach := some 13000 },
        { name := "Two-Handed Mace", speed := some 6000, stagger := 12500, reach := some 13000 },
        { name := "Bow", speed := none, stagger := 0, reach := none } ] } ∧
    seededConn.db.type.filter (fun r => r.name == "Two-Handed Sword") =
      [type_twohand_sword] := by
  exact ⟨by decide, by decide⟩

/-- Claim C8: the three updates and two deletions reach the state the seven
report queries read (`patchedConn.db`, the same connection), even though the
patch functions never call `connect.commit`: the committed state is still the
plain seeded one.  Each query result below reflects the patched data — Query 1
is missing Iron Bow although the committed store still lists it, and Query 7
shows the corrected Ebony damages 14 and 15 where the committed store still
has 15 and 16. -/
theorem claim_c8 :
    patchedConn.committed = seededConn.db ∧
    selectIronWeapons patchedConn.db =
      ["Iron Sword", "Iron War Axe", "Iron Mace", "Iron Dagger", "Iron Greatsword",
       "Iron Battleaxe", "Iron Warhammer"] ∧
    selectBowsBySpeed patchedConn.db = ["Orcish", "Dwarven", "Long", "Hunting", "Dragonbone"] ∧
    selectEnchantedWeapons patchedConn.db =
      [ { id := "00012eb7", enchantmentName := "HealthDrain" },
        { id := "0001398d", enchantmentName := "Water" } ] ∧
    selectForgeabilityPerkLevel patchedConn.db =
      ["Glass Smithing", "Ebony Smithing", "Daedric Smithing", "Dragon Armor"] ∧
    selectAllDwarvenAxes patchedConn.db = ["Dwarven War Axe", "Dwarven Battleaxe"] ∧
    selectEnchantmentsForWarhammers patchedConn.db =
      [("Shock", "Shock damage and drain magicka")] ∧
    selectHighestDamage patchedConn.db =
      [ (15, 160000, "Iron"), (16, 200000, "Iron"), (18, 240000, "Iron"),
        (17, 170000, "Steel"), (18, 210000, "Steel"), (20, 250000, "Steel"),
        (18, 180000, "Orcish"), (19, 250000, "Orcish"), (21, 260000, "Orcish"),
        (19, 190000, "Dwarven"), (20, 230000, "Dwarven"), (22, 270000, "Dwarven"),
        (20, 200000, "Elven"), (21, 240000, "Elven"), (23, 280000, "Elven"),
        (14, 180000, "Glass"), (21, 220000, "Glass"), (22, 250000, "Glass"),
        (24, 290000, "Glass"), (15, 140000, "Glass"),
        (14, 170000, "Ebony"), (15, 190000, "Ebony"), (22, 220000, "Ebony"),
        (23, 260000, "Ebony"), (25, 300000, "Ebony"), (17, 160000, "Ebony"),
        (14, 160000, "Daedric"), (15, 180000, "Daedric"), (16, 200000, "Daedric"),
        (24, 230000, "Daedric"), (25, 270000, "Daedric"), (27, 310000, "Daedric"),
        (19, 180000, "Daedric"),
        (20, 190000, "Nordic"), (21, 230000, "Nordic"), (23, 270000, "Nordic"),
        (15, 160000, "Stalhrim"), (16, 180000, "Stalhrim"), (23, 210000, "Stalhrim"),
        (24, 250000, "Stalhrim"), (26, 290000, "Stalhrim"), (17, 150000, "Stalhrim"),
        (15, 190000, "Dragonbone"), (16, 210000, "Dragonbone"), (17, 220000, "Dragonbone"),
        (25, 270000, "Dragonbone"), (26, 300000, "Dragonbone"), (28, 330000, "Dragonbone"),
        (20, 200000, "Dragonbone") ] ∧
    selectIronWeapons patchedConn.committed =
      ["Iron Sword", "Iron War Axe", "Iron Mace", "Iron Dagger", "Iron Greatsword",
       "Iron Battleaxe", "Iron Warhammer", "Iron Bow"] ∧
    (patchedConn.committed.material.filter (fun r => r.name == "Ebony")).map
        (fun r => r.damage) = [13, 15, 16, 10, 22, 23, 25, 17] ∧
    patchedConn.db.type.any
      (fun r => r.name == "Two-Handed Sword" && r.speed == some 7500) = true ∧
    patchedConn.committed.type.any
      (fun r => r.name == "Two-Handed Sword" && r.speed == some 7500) = false := by
  exact ⟨by decide, by decide, by decide, by decide, by decide, by decide, by decide,
    by decide, by decide, by decide, by decide, by decide⟩

/-- Claim C9: only the Weapon table carries a uniqueness check — inserting into
`Type`, `Material`, `Forgeability`, `Enchanting` or `EnchantedWith` always
succeeds, whatever the current store holds.  Consequently a second seed run on
the populated store first re-inserts (and commits) all eight Type rows and all
64 base Material rows in duplicate, and only then aborts on the first Weapon ID
collision: the failed re-seed does not leave the store unchanged. -/
theorem claim_c9 :
    (∀ (conn : Conn) (t : TypeRow),
      applyOp conn (SeedOp.insType t) = Except.ok (createType conn t)) ∧
    (∀ (conn : Conn) (m : MaterialRow),
      applyOp conn (SeedOp.insMaterial m) = Except.ok (createMaterial conn m)) ∧
    (∀ (conn : Conn) (f : ForgeabilityRow),
      applyOp conn (SeedOp.insForgeability f) = Except.ok (createForgeability conn f)) ∧
    (∀ (conn : Conn) (e : EnchantingRow),
      applyOp conn (SeedOp.insEnchanting e) = Except.ok (createEnchanting conn e)) ∧
    (∀ (conn : Conn) (e : EnchantedWithRow),
      applyOp conn (SeedOp.insEnchantedWith e) = Except.ok (createEnchantedWith conn e)) ∧
    (runOps seededConn seedOps).1.db.type = seededConn.db.type ++ seededConn.db.type ∧
    ((runOps seededConn seedOps).1.db.type.filter
      (fun t => t.name == "One-Handed Sword")).length = 2 ∧
    ((runOps seededConn seedOps).1.db.material.filter
      (fun m => m.name == "Iron")).length = 14 ∧
    (runOps seededConn seedOps).1.db.material.length = 152 ∧
    (runOps seededConn seedOps).1.committed = (runOps seededConn seedOps).1.db ∧
    (runOps seededConn seedOps).1.db ≠ seededConn.db ∧
    (runOps seededConn seedOps).2.2 = some "UNIQUE constraint failed: Weapon.ID" := by
  exact ⟨fun _ _ => rfl, fun _ _ => rfl, fun _ _ => rfl, fun _ _ => rfl, fun _ _ => rfl,
    by decide, by decide, by decide, by decide, by decide, by decide, by decide⟩

/-- Claim C10: every bow row of the seeded Weapon table — base game and both
DLC batches, thirteen rows in all — carries Type `"Archery"`, while the Type
table's archery row is named `"Bow"` and no Type row is named `"Archery"`;
every seed insertion nonetheless succeeded (foreign keys are not enforced at
runtime), so the referential invariant that every `Weapon.Type` names an
existing Type row fails on the seeded database. -/
theorem claim_c10 :
    seededRun.2.2 = none ∧
    (seededConn.db.weapon.filter (fun r => r.type == "Archery")).map (fun r => r.name) =
      ["Long Bow", "Hunting Bow", "Iron Bow", "Steel Bow", "Orcish Bow", "Dwarven Bow",
       "Elven Bow", "Glass Bow", "Ebony Bow", "Daedric Bow", "Nordic Bow", "Stalhrim Bow",
       "Dragonbone Bow"] ∧
    seededConn.db.type.all (fun t => !(t.name == "Archery")) = true ∧
    seededConn.db.type.filter (fun t => t.name == "Bow") =
      [{ name := "Bow", speed := none, stagger := 0, reach := none }] ∧
    seededConn.db.weapon.all
      (fun w => seededConn.db.type.any (fun t => t.name == w.type)) = false := by
  exact ⟨by decide, by decide, by decide, by decide, by decide⟩
